import Mathlib

/-!
Verification of `landppt/services/global_master_template_service.py`
(`GlobalMasterTemplateService`): a shallow embedding of the template CRUD
wrappers, the AI generation/adjustment pipelines (blocking and streaming),
HTML extraction from free-form model output, and structural HTML validation.

Strings are modelled as `List Char` internally (Python `str` is a sequence of
code points); the public entry points take `String` and convert.  External
collaborators (database service, AI provider) are passed in as explicit
oracles/stubs, mirroring exactly the calls the source issues to them.
Python exceptions are modelled with `Except String`; every embedded function
is total, so "never raises" statements are about which `Except` value is
produced, and generator `yield` sequences are modelled as `List` values.
-/

namespace LandPPT

/-- The characters Python's `str.strip()` removes (ASCII whitespace). -/
def isPySpace (c : Char) : Bool :=
  c = ' ' || c = '\t' || c = '\n' || c = '\r' || c = '\x0b' || c = '\x0c'

/-- Python `str.strip()`: drop leading and trailing whitespace. -/
def pyStrip (s : List Char) : List Char :=
  ((s.dropWhile isPySpace).reverse.dropWhile isPySpace).reverse

/-- Python `str.lower()` (ASCII case folding, as used by the source on
ASCII-significant markers). -/
def lowerL (s : List Char) : List Char := s.map Char.toLower

/-- String-level `strip`. -/
def pyStripS (s : String) : String := String.mk (pyStrip s.data)

/-- First index (if any) at which `needle` occurs as a contiguous substring of
the haystack; mirrors the start position of Python's `re.search` for a literal. -/
def findSub (needle : List Char) : List Char → Option Nat
  | [] => if needle.isEmpty then some 0 else none
  | c :: t =>
    if needle.isPrefixOf (c :: t) then some 0
    else (findSub needle t).map (fun n => n + 1)

/-- Whether `needle` occurs as a contiguous substring of the haystack. -/
def containsSub (needle : List Char) : List Char → Bool
  | [] => needle.isEmpty
  | c :: t => needle.isPrefixOf (c :: t) || containsSub needle t

/-- Case-insensitive substring search (`re.IGNORECASE`): indices are preserved
because lowering is per-character. -/
def findSubCI (needle hay : List Char) : Option Nat :=
  findSub (lowerL needle) (lowerL hay)

@[simp] theorem containsSub_nil (needle : List Char) :
    containsSub needle [] = needle.isEmpty := rfl

@[simp] theorem containsSub_cons (needle : List Char) (c : Char) (t : List Char) :
    containsSub needle (c :: t) = (needle.isPrefixOf (c :: t) || containsSub needle t) := rfl

theorem containsSub_iff (needle hay : List Char) :
    containsSub needle hay = true ↔ ∃ a b, hay = a ++ needle ++ b := by
  induction hay with
  | nil =>
    simp only [containsSub_nil, List.isEmpty_iff]
    constructor
    · intro h; exact ⟨[], [], by simp [h]⟩
    · rintro ⟨a, b, h⟩
      rcases a <;> rcases needle <;> simp_all
  | cons c t ih =>
    simp only [containsSub_cons, Bool.or_eq_true, ih]
    constructor
    · rintro (h | ⟨a, b, rfl⟩)
      · rcases List.isPrefixOf_iff_prefix.mp h with ⟨b, hb⟩
        exact ⟨[], b, by simp [hb]⟩
      · exact ⟨c :: a, b, by simp⟩
    · rintro ⟨a, b, hab⟩
      match a with
      | [] =>
        left
        exact List.isPrefixOf_iff_prefix.mpr ⟨b, by simpa using hab.symm⟩
      | a0 :: a' =>
        right
        simp only [List.cons_append, List.cons.injEq] at hab
        exact ⟨a', b, hab.2⟩

theorem findSub_none_iff (needle hay : List Char) :
    findSub needle hay = none ↔ containsSub needle hay = false := by
  induction hay with
  | nil =>
    by_cases h : needle.isEmpty <;> simp [findSub, h]
  | cons c t ih =>
    by_cases h : needle.isPrefixOf (c :: t) <;>
      simp [findSub, h, ih, Option.map_eq_none]

theorem containsSub_false_of_not_mem (needle hay : List Char) (x : Char)
    (hx : x ∈ needle) (hh : x ∉ hay) : containsSub needle hay = false := by
  by_contra h
  rcases containsSub_iff needle hay |>.mp (by simpa using Bool.of_not_eq_false h) with ⟨a, b, rfl⟩
  exact hh (by simp [hx])

/-! ### HTML extraction (`_extract_html_from_response`, source lines 904-939)

The source tries four regex/string patterns in a fixed order and falls back to
the stripped input.  Each pattern is embedded below with the leftmost-match
semantics of `re.search` worked out for the concrete regular expressions used
(`re.DOTALL`, and `re.IGNORECASE` where the source passes it). -/

/-- The opening marker of pattern 1: a fence tagged `html`. -/
def fenceHtmlTok : List Char := "```html".data

/-- A code fence. -/
def fenceTok : List Char := "```".data

/-- The case-insensitive document opener used by patterns 2-4. -/
def doctypeTok : List Char := "<!DOCTYPE html".data

/-- The closing tag used by patterns 2-4. -/
def closeHtmlTok : List Char := "</html>".data

/-- Pattern 1, `re.search(r'```html\s*(.*?)\s*```', s, re.DOTALL)`: the span
between the first occurrence of ` ```html ` and the next ` ``` ` after it
(the greedy/lazy whitespace groups only shave surrounding whitespace, which the
source then strips anyway, so the raw span is returned here and stripped by the
caller). -/
def fenceHtmlSpan (s : List Char) : Option (List Char) :=
  match findSub fenceHtmlTok s with
  | none => none
  | some i =>
    let rest := s.drop (i + 7)
    match findSub fenceTok rest with
    | none => none
    | some j => some (rest.take j)

/-- ASCII letter test, for the `[a-zA-Z]*` fence tag of pattern 2. -/
def isAsciiLetter (c : Char) : Bool :=
  ('a' ≤ c && c ≤ 'z') || ('A' ≤ c && c ≤ 'Z')

/-- After a candidate `</html>` of pattern 2 the regex requires `\s*` and then
a closing fence. -/
def closeThenFence (s : List Char) : Bool :=
  fenceTok.isPrefixOf (s.dropWhile isPySpace)

/-- Search (in the text following the `<!DOCTYPE html` opener) for the first
case-insensitive `</html>` that is followed by optional whitespace and a
closing fence; returns its start offset. -/
def findHtmlCloseFence : List Char → Nat → Option Nat
  | [], _ => none
  | c :: t, i =>
    if (lowerL closeHtmlTok).isPrefixOf (lowerL (c :: t)) && closeThenFence ((c :: t).drop 7)
    then some i
    else findHtmlCloseFence t (i + 1)

/-- Try pattern 2 at one candidate start position (the suffix `s`):
` ``` ` + `[a-zA-Z]*` + `\s*` + ci `<!DOCTYPE html` … ci `</html>` + `\s*` + ` ``` `.
The letter and whitespace runs are deterministic here because neither class can
consume the `<` that must follow them. -/
def fencedDoctypeAt (s : List Char) : Option (List Char) :=
  if fenceTok.isPrefixOf s then
    let afterTag := ((s.drop 3).dropWhile isAsciiLetter).dropWhile isPySpace
    if (lowerL doctypeTok).isPrefixOf (lowerL afterTag) then
      match findHtmlCloseFence (afterTag.drop 14) 0 with
      | none => none
      | some j => some (afterTag.take (14 + j + 7))
    else none
  else none

/-- Pattern 2, `re.search` over all start positions, leftmost match first:
`r'```[a-zA-Z]*\s*(<!DOCTYPE html.*?</html>)\s*```'` with `DOTALL | IGNORECASE`. -/
def fencedDoctypeSpan : List Char → Option (List Char)
  | [] => none
  | c :: t =>
    match fencedDoctypeAt (c :: t) with
    | some r => some r
    | none => fencedDoctypeSpan t

/-- Pattern 3, `re.search(r'<!DOCTYPE html.*?</html>', s, re.DOTALL | re.IGNORECASE)`:
from the first case-insensitive `<!DOCTYPE html` to the first case-insensitive
`</html>` after it. -/
def doctypeSpan (s : List Char) : Option (List Char) :=
  match findSubCI doctypeTok s with
  | none => none
  | some i =>
    let rest := s.drop i
    match findSubCI closeHtmlTok (rest.drop 14) with
    | none => none
    | some j => some (rest.take (14 + j + 7))

/-- Pattern 4's test: the stripped whole text starts with `<!doctype html` and
ends with `</html>`, case-insensitively. -/
def wholeIsHtml (stripped : List Char) : Bool :=
  (lowerL doctypeTok).isPrefixOf (lowerL stripped) &&
  (lowerL closeHtmlTok).isSuffixOf (lowerL stripped)

/-- `_extract_html_from_response` (source lines 904-939): layered best-effort
extraction, first match wins, each captured span stripped of surrounding
whitespace; falls back to the stripped input (both the pattern-4 and the
last-resort branch return the stripped content, as in the source). -/
def extractHtmlL (response_content : List Char) : List Char :=
  match fenceHtmlSpan response_content with
  | some c => pyStrip c
  | none =>
    match fencedDoctypeSpan response_content with
    | some c => pyStrip c
    | none =>
      match doctypeSpan response_content with
      | some c => pyStrip c
      | none =>
        let content_stripped := pyStrip response_content
        if wholeIsHtml content_stripped then content_stripped
        else pyStrip response_content

/-- String-level wrapper for `_extract_html_from_response`.  Total: extraction
never raises. -/
def extract_html_from_response (response_content : String) : String :=
  String.mk (extractHtmlL response_content.data)

/-! ### HTML validation (`_validate_html_template`, source lines 941-980) -/

/-- `_validate_html_template` (source lines 941-980): rejects empty/blank
input, requires the lower-cased stripped text to start with `<!doctype html`,
to contain `</html>`, and to contain `<head`, `<body` and `<title`.  The
source's `try/except` returning `False` is vacuous here: the embedding is
total. -/
def validate_html_template (html_content : String) : Bool :=
  -- `html_lower = html_content.lower().strip()` appears inlined below
  if (pyStrip html_content.data).isEmpty then false
  else
    ("<!doctype html".data.isPrefixOf (pyStrip (lowerL html_content.data))) &&
    (containsSub "</html>".data (pyStrip (lowerL html_content.data))) &&
    (containsSub "<head".data (pyStrip (lowerL html_content.data))) &&
    (containsSub "<body".data (pyStrip (lowerL html_content.data))) &&
    (containsSub "<title".data (pyStrip (lowerL html_content.data)))

/-! ### Prompt building for blocking generation
(`generate_template_with_ai`, source lines 343-489)

The source builds a `messages` list of dicts and then converts it to
`AIMessage` values (text parts, plus an image part kept only when its URL
starts with `data:`); both steps are embedded, fused into one construction of
the final message value. -/

/-- Python's `prompt[:100]`. -/
def takeStr (n : Nat) (s : String) : String := String.mk (s.data.take n)

/-- A reference image as passed by callers: base64 (or data-URI) payload and
MIME type. -/
structure RefImage where
  data : String
  type : String
deriving DecidableEq, Repr

/-- One content part of a provider message. -/
inductive MessagePart where
  | text (text : String)
  | image (url : String)
deriving DecidableEq, Repr

/-- A provider message (the source always uses role `user` here). -/
structure AIMsg where
  role : String
  content : List MessagePart
deriving DecidableEq, Repr

/-- The design-requirements block shared verbatim by the text-only and the
multimodal blocking prompts (source lines 366-383 and 414-431). -/
def designRequirements : String :=
  "设计要求：\n" ++
  "1. **严格尺寸控制**：页面尺寸必须为1280x720像素（16:9比例）\n" ++
  "2. **完整HTML结构**：包含<!DOCTYPE html>、head、body等完整结构\n" ++
  "3. **内联样式**：所有CSS样式必须内联，确保自包含性\n" ++
  "4. **响应式设计**：适配不同屏幕尺寸但保持16:9比例\n" ++
  "5. **占位符支持**：在适当位置使用占位符，如：\n" ++
  "   - \x7b\x7b page_title \x7d\x7d - 页面标题，默认居左\n" ++
  "   - \x7b\x7b page_content \x7d\x7d - 页面内容\n" ++
  "   - \x7b\x7b current_page_number \x7d\x7d - 当前页码\n" ++
  "   - \x7b\x7b total_page_count \x7d\x7d - 总页数\n" ++
  "6. **技术要求**：\n" ++
  "   - 使用Tailwind CSS或内联CSS\n" ++
  "   - 支持Font Awesome图标\n" ++
  "   - 支持Chart.js、ECharts.js、D3.js等图表库\n" ++
  "   - 确保所有内容在720px高度内完全显示\n" ++
  "   - 绝对不允许出现任何滚动条\n" ++
  "\n请详细说明你的设计思路，然后生成完整的HTML模板代码，使用```html代码块格式返回。\n"

/-- The text-only blocking prompt (source lines 352-384). -/
def textOnlyPromptGen (prompt : String) : String :=
  "\n作为专业的PPT模板设计师，请根据以下要求生成一个HTML母版模板。\n\n" ++
  "请按照以下步骤思考并生成：\n\n" ++
  "1. 首先分析用户需求\n" ++
  "2. 设计模板的整体风格和布局\n" ++
  "3. 确定色彩方案和字体选择\n" ++
  "4. 编写HTML结构\n" ++
  "5. 添加CSS样式\n" ++
  "6. 优化和完善\n\n" ++
  "用户需求：" ++ prompt ++ "\n\n" ++ designRequirements

/-- The `reference_style` mode instruction (source lines 389-396). -/
def refStyleInstruction : String :=
  "\n请参考上传的图片风格，借鉴其设计元素、色彩搭配、布局结构等，但不需要完全复制。\n" ++
  "重点关注：\n" ++
  "- 色彩方案和配色理念\n" ++
  "- 设计风格和视觉元素\n" ++
  "- 布局结构和空间安排\n" ++
  "- 字体选择和排版风格\n"

/-- The `one_to_one` (exact replica) mode instruction (source lines 398-405),
used for every mode other than `reference_style` in the multimodal branch. -/
def oneToOneInstruction : String :=
  "\n请尽可能准确地复制上传图片的设计，包括：\n" ++
  "- 精确的布局结构\n" ++
  "- 相同的色彩搭配\n" ++
  "- 类似的视觉元素\n" ++
  "- 相近的字体和排版\n" ++
  "- 整体的设计风格\n"

/-- The multimodal blocking prompt (source lines 407-432). -/
def multimodalPromptGen (mode_instruction prompt : String) : String :=
  "\n作为专业的PPT模板设计师，请根据参考图片和以下要求生成一个HTML母版模板。\n\n" ++
  mode_instruction ++ "\n\n" ++
  "用户需求：" ++ prompt ++ "\n\n" ++ designRequirements

/-- Image-URL normalization (source lines 436-439 / 694-698): pass a
`data:`-qualified URI through unchanged, otherwise compose MIME type and
base64 payload into one. -/
def normalizeImageUrl (img : RefImage) : String :=
  if "data:".isPrefixOf img.data then img.data
  else "data:" ++ img.type ++ ";base64," ++ img.data

/-- Message construction of `generate_template_with_ai` (source lines 350-489):
the text-only prompt is used when the mode is `text_only` or no reference
image is supplied; otherwise the multimodal message is built, with the
`reference_style` instruction for that mode and the `one_to_one` instruction
for every other mode string.  The image part survives the conversion filter
because the normalized URL always starts with `data:`. -/
def build_generation_messages (generation_mode prompt : String)
    (reference_image : Option RefImage) : List AIMsg :=
  match reference_image with
  | none => [⟨"user", [MessagePart.text (textOnlyPromptGen prompt)]⟩]
  | some img =>
    if generation_mode = "text_only" then
      [⟨"user", [MessagePart.text (textOnlyPromptGen prompt)]⟩]
    else
      let mode_instruction :=
        if generation_mode = "reference_style" then refStyleInstruction
        else oneToOneInstruction
      [⟨"user", [MessagePart.text (multimodalPromptGen mode_instruction prompt),
                 MessagePart.image (normalizeImageUrl img)]⟩]

/-! ### Template records and CRUD wrappers

The persistence collaborator (`DatabaseService`) is external; its calls are
modelled as explicit oracle arguments, and each embedded CRUD wrapper
additionally reports whether (and with what) it invoked the collaborator's
mutating call, so that "no call was issued" is a provable statement. -/

/-- The template record shape the service reads from the collaborator. -/
structure TemplateRecord where
  id : Nat
  template_name : String
  html_template : String
  preview_image : String
  tags : List String
  is_default : Bool
  is_active : Bool
  usage_count : Nat
deriving DecidableEq, Repr

/-- `create_template` (source lines 72-125): validates required fields
(`template_name`, then `html_template`; Python's falsiness check means missing
or empty), then rejects names for which the by-name lookup returns a record,
and only then issues the collaborator's create.  Returns the outcome and
whether the create call was issued.  The preview-image/style-config defaulting
between the checks and the create only fills fields of the data passed to the
collaborator and is not modelled. -/
def create_template (template_name html_template : String)
    (get_by_name : String → Option TemplateRecord)
    (db_create : TemplateRecord) : Except String TemplateRecord × Bool :=
  if template_name = "" then
    (Except.error "Missing required field: template_name", false)
  else if html_template = "" then
    (Except.error "Missing required field: html_template", false)
  else
    match get_by_name template_name with
    | some _ =>
      (Except.error ("Template name '" ++ template_name ++ "' already exists"), false)
    | none => (Except.ok db_create, true)

/-- `update_template` (source lines 245-270): when the update carries a
`template_name`, a by-name lookup is made and the update is rejected exactly
when it returns a record whose id differs from the one being updated;
otherwise the collaborator's update is invoked and its boolean returned.
Second component: whether the collaborator update was issued. -/
def update_template (template_id : Nat) (update_name : Option String)
    (get_by_name : String → Option TemplateRecord)
    (db_update : Bool) : Except String Bool × Bool :=
  match update_name with
  | some n =>
    match get_by_name n with
    | some existing =>
      if existing.id ≠ template_id then
        (Except.error ("Template name '" ++ n ++ "' already exists"), false)
      else (Except.ok db_update, true)
    | none => (Except.ok db_update, true)
  | none => (Except.ok db_update, true)

/-- `delete_template` (source lines 272-300): a missing id returns `false`
without error and without a collaborator delete; a record with the default
flag raises and issues no delete; otherwise the collaborator delete runs and
its boolean is returned.  Second component: the ids a delete was issued for. -/
def delete_template (template_id : Nat)
    (get_by_id : Nat → Option TemplateRecord)
    (db_delete : Nat → Bool) : Except String Bool × List Nat :=
  match get_by_id template_id with
  | none => (Except.ok false, [])
  | some template =>
    if template.is_default then
      (Except.error "Cannot delete the default template", [])
    else (Except.ok (db_delete template_id), [template_id])

/-- The pagination block both paginated listings return. -/
structure PaginationInfo where
  current_page : Nat
  page_size : Nat
  total_count : Nat
  total_pages : Nat
  has_next : Bool
  has_prev : Bool
deriving DecidableEq, Repr

/-- A paginated listing result. -/
structure PaginatedResult where
  templates : List TemplateRecord
  pagination : PaginationInfo
deriving DecidableEq, Repr

/-- `get_all_templates_paginated` (source lines 155-213): computes
`offset = (page - 1) * page_size`, asks the collaborator for
`(records, total_count)` at `(offset, limit)`, and derives
`total_pages = (total_count + page_size - 1) // page_size`,
`has_next = page < total_pages`, `has_prev = page > 1`. -/
def get_all_templates_paginated (page page_size : Nat)
    (db_paginated : Nat → Nat → List TemplateRecord × Nat) : PaginatedResult :=
  let offset := (page - 1) * page_size
  let r := db_paginated offset page_size
  let total_count := r.2
  let total_pages := (total_count + page_size - 1) / page_size
  { templates := r.1,
    pagination :=
      { current_page := page, page_size := page_size, total_count := total_count,
        total_pages := total_pages,
        has_next := decide (page < total_pages),
        has_prev := decide (page > 1) } }

/-- `get_templates_by_tags_paginated` (source lines 1055-1115): identical
pagination arithmetic over the tag-filtered collaborator query. -/
def get_templates_by_tags_paginated (tags : List String) (page page_size : Nat)
    (db_by_tags_paginated : List String → Nat → Nat → List TemplateRecord × Nat) :
    PaginatedResult :=
  let offset := (page - 1) * page_size
  let r := db_by_tags_paginated tags offset page_size
  let total_count := r.2
  let total_pages := (total_count + page_size - 1) / page_size
  { templates := r.1,
    pagination :=
      { current_page := page, page_size := page_size, total_count := total_count,
        total_pages := total_pages,
        has_next := decide (page < total_pages),
        has_prev := decide (page > 1) } }

/-! ### Streaming pipelines
(`generate_template_with_ai_stream`, source lines 579-794, and
`adjust_template_with_ai_stream`, source lines 796-900)

A generator run is modelled as the list of events it yields.  The provider is
a stub recording, per capability, what its calls would produce: a streaming
call yields some chunks and then optionally raises, a blocking call either
returns text or raises.  Each `*_body` function mirrors the source's `try`
block and returns `(events yielded, exception if one was raised)`; the outer
function mirrors the `except` clause, which appends a single `error` event. -/

/-- The payload of a `complete` event.  The generation pipeline fills
`description`/`tags`/`llm_response`; the adjustment pipeline's `complete`
carries only the first three fields (source lines 852-857 / 888-893). -/
structure CompletePayload where
  message : String
  html_template : String
  template_name : String
  description : Option String
  tags : Option (List String)
  llm_response : Option String
deriving DecidableEq, Repr

/-- A streamed event: progress (`thinking`), terminal success (`complete`) or
terminal failure (`error`). -/
inductive StreamEvent where
  | thinking (content : String)
  | complete (payload : CompletePayload)
  | error (message : String)
deriving DecidableEq, Repr

/-- Whether an event is one of the two terminal variants. -/
def StreamEvent.isTerminal : StreamEvent → Bool
  | .thinking _ => false
  | .complete _ => true
  | .error _ => true

/-- Whether an event is an `error` event. -/
def StreamEvent.isError : StreamEvent → Bool
  | .error _ => true
  | _ => false

/-- A stub of the AI-provider collaborator.  `supportsStreamChat` /
`supportsStreamText` model the source's `hasattr` capability probing; a
streaming call yields its chunks and then optionally raises `streamChatErr` /
`streamTextErr`; a blocking call returns `.ok` text or raises `.error`. -/
structure ProviderStub where
  supportsStreamChat : Bool
  supportsStreamText : Bool
  streamChatChunks : List String
  streamChatErr : Option String
  chatResult : Except String String
  streamTextChunks : List String
  streamTextErr : Option String
  textResult : Except String String
deriving Repr

/-- The streaming-or-blocking first phase of the text-only generation branch
(source lines 736-763): forwarded token chunks when the provider streams
(with the exception raised mid-stream, if any), otherwise one blocking call
followed by two synthetic `thinking` events.  Returns the yielded events and
the accumulated full response or the raised exception. -/
def textStreamPhase (p : ProviderStub) : List StreamEvent × Except String String :=
  if p.supportsStreamText then
    (p.streamTextChunks.map StreamEvent.thinking,
     match p.streamTextErr with
     | some e => Except.error e
     | none => Except.ok (String.join p.streamTextChunks))
  else
    match p.textResult with
    | Except.error e => ([], Except.error e)
    | Except.ok content =>
      ([StreamEvent.thinking "🤔 正在分析您的需求...\n\n",
        StreamEvent.thinking content], Except.ok content)

/-- The `try`-block of `generate_template_with_ai_stream` (source lines
686-787).  In the multimodal branch (mode other than `text_only` with a
reference image present, line 691) the source only streams/simulates the model
output as `thinking` events: the extract/validate/`complete` block (lines
765-787) is indented under the text-only `else` branch and never runs there.
Returns the yielded events and the raised exception, if any. -/
def generate_stream_body (generation_mode prompt template_name description : String)
    (tags : List String) (reference_image : Option RefImage)
    (p : ProviderStub) : List StreamEvent × Option String :=
  if generation_mode ≠ "text_only" ∧ reference_image.isSome then
    -- multimodal branch (source lines 691-733); `image_url` normalization
    -- (lines 694-698) only affects the provider call, not the events
    if p.supportsStreamChat then
      (p.streamChatChunks.map StreamEvent.thinking, p.streamChatErr)
    else
      match p.chatResult with
      | Except.error e => ([], some e)
      | Except.ok content =>
        ([StreamEvent.thinking "🖼️ 正在分析参考图片...\n\n",
          StreamEvent.thinking content], none)
  else
    -- text-only branch (source lines 734-787)
    match textStreamPhase p with
    | (evs, Except.error e) => (evs, some e)
    | (evs, Except.ok full_response) =>
      if validate_html_template (extract_html_from_response full_response) then
        (evs ++ [StreamEvent.thinking "\n\n✨ 优化样式和交互效果...\n",
                 StreamEvent.thinking "✅ 模板生成完成，准备预览...\n",
                 StreamEvent.complete
                   { message := "模板生成完成！",
                     html_template := extract_html_from_response full_response,
                     template_name := template_name,
                     description := some (if description = "" then
                       "AI生成的模板：" ++ takeStr 100 prompt else description),
                     tags := some (if tags = [] then ["AI生成"] else tags),
                     llm_response := some full_response }], none)
      else (evs ++ [StreamEvent.thinking "\n\n✨ 优化样式和交互效果...\n"],
            some "Generated HTML template is invalid")

/-- `generate_template_with_ai_stream` (source lines 579-794): the `try` body
followed by the `except` clause, which converts a raised exception into one
terminal `error` event. -/
def generate_template_with_ai_stream (generation_mode prompt template_name description : String)
    (tags : List String) (reference_image : Option RefImage)
    (p : ProviderStub) : List StreamEvent :=
  match generate_stream_body generation_mode prompt template_name description
      tags reference_image p with
  | (evs, none) => evs
  | (evs, some m) => evs ++ [StreamEvent.error m]

/-- The `try`-block of `adjust_template_with_ai_stream` (source lines
821-893): single pass, no retry; with streaming support the chunks are
forwarded, otherwise three synthetic status events precede the blocking call;
both branches then extract, validate and emit `complete`. -/
def adjust_stream_body (adjustment_request template_name : String)
    (p : ProviderStub) : List StreamEvent × Option String :=
  if p.supportsStreamText then
    match p.streamTextErr with
    | some e => (p.streamTextChunks.map StreamEvent.thinking, some e)
    | none =>
      if validate_html_template
          (extract_html_from_response (String.join p.streamTextChunks)) then
        (p.streamTextChunks.map StreamEvent.thinking ++
          [StreamEvent.thinking "\n\n✨ 完成模板调整...\n",
           StreamEvent.complete
             { message := "模板调整完成！",
               html_template :=
                 extract_html_from_response (String.join p.streamTextChunks),
               template_name := template_name, description := none,
               tags := none, llm_response := none }], none)
      else (p.streamTextChunks.map StreamEvent.thinking ++
              [StreamEvent.thinking "\n\n✨ 完成模板调整...\n"],
            some "Adjusted HTML template is invalid")
  else
    match p.textResult with
    | Except.error e =>
      ([StreamEvent.thinking "🔄 正在分析调整需求...\n\n",
        StreamEvent.thinking ("调整需求：" ++ adjustment_request ++ "\n\n"),
        StreamEvent.thinking "🎨 开始调整模板...\n"], some e)
    | Except.ok content =>
      if validate_html_template (extract_html_from_response content) then
        ([StreamEvent.thinking "🔄 正在分析调整需求...\n\n",
          StreamEvent.thinking ("调整需求：" ++ adjustment_request ++ "\n\n"),
          StreamEvent.thinking "🎨 开始调整模板...\n",
          StreamEvent.thinking "✨ 完成模板调整...\n",
          StreamEvent.complete
            { message := "模板调整完成！",
              html_template := extract_html_from_response content,
              template_name := template_name, description := none,
              tags := none, llm_response := none }], none)
      else
        ([StreamEvent.thinking "🔄 正在分析调整需求...\n\n",
          StreamEvent.thinking ("调整需求：" ++ adjustment_request ++ "\n\n"),
          StreamEvent.thinking "🎨 开始调整模板...\n",
          StreamEvent.thinking "✨ 完成模板调整...\n"],
         some "Adjusted HTML template is invalid")

/-- `adjust_template_with_ai_stream` (source lines 796-900): `try` body plus
the `except` clause appending a single terminal `error` event.  (The prompt
built from `current_html` does not influence the event sequence and is left to
the provider stub.) -/
def adjust_template_with_ai_stream (adjustment_request template_name : String)
    (p : ProviderStub) : List StreamEvent :=
  match adjust_stream_body adjustment_request template_name p with
  | (evs, none) => evs
  | (evs, some m) => evs ++ [StreamEvent.error m]

/-! ### Blocking generation with retry
(`generate_template_with_ai`, source lines 491-573)

Each attempt consults the provider once; `resp n` is the outcome of the
`n`-th (0-based) provider call: `.error` for a raised provider exception,
`.ok` for returned text.  The per-attempt logic (source lines 496-561)
either succeeds, retries, or fails; retry branches are only reachable on
non-final attempts, exactly as the `attempt < max_retries - 1` guards have
it. -/

/-- What one attempt of the retry loop decides. -/
inductive AttemptOut where
  | success (html_template full_response : String)
  | retry
  | fail (msg : String)
deriving DecidableEq, Repr

/-- One attempt of the blocking retry loop (source lines 497-561), given the
provider-call outcome and whether this is the final (5th) attempt: a raised
provider exception retries or, on the final attempt, propagates; an
empty/blank response retries or fails; a response shorter than 2000 characters
retries on non-final attempts but is accepted for further processing on the
final one; a blank extraction retries or fails; a failed validation retries or
fails; otherwise the attempt succeeds. -/
def attemptStep (resp : Except String String) (final : Bool) : AttemptOut :=
  match resp with
  | Except.error e => if final then AttemptOut.fail e else AttemptOut.retry
  | Except.ok full_response =>
    if pyStripS full_response = "" then
      if final then AttemptOut.fail "AI服务返回空响应" else AttemptOut.retry
    else if full_response.length < 2000 ∧ final = false then
      AttemptOut.retry
    else
      let html_template := extract_html_from_response full_response
      if pyStripS html_template = "" then
        if final then AttemptOut.fail "AI响应中未找到有效的HTML模板" else AttemptOut.retry
      else if validate_html_template html_template = false then
        if final then AttemptOut.fail "生成的HTML模板验证失败" else AttemptOut.retry
      else AttemptOut.success html_template full_response

/-- The retry loop `for attempt in range(max_retries)` (source lines 491-564),
by remaining attempts; returns the outcome together with the number of
provider calls made.  The base case is Python's unreachable
post-loop `if not html_template` guard (source lines 563-564). -/
def genLoop (resp : Nat → Except String String) : Nat → Nat → Except String (String × String) × Nat
  | _, 0 => (Except.error "Failed to generate valid HTML template after all retries", 0)
  | attempt, remaining + 1 =>
    match attemptStep (resp attempt) (decide (remaining = 0)) with
    | AttemptOut.success h f => (Except.ok (h, f), 1)
    | AttemptOut.fail m => (Except.error m, 1)
    | AttemptOut.retry =>
      ((genLoop resp (attempt + 1) remaining).1,
       (genLoop resp (attempt + 1) remaining).2 + 1)

/-- The result dict of blocking generation (source lines 567-573). -/
structure GenResult where
  html_template : String
  template_name : String
  description : String
  tags : List String
  llm_response : String
deriving DecidableEq, Repr

/-- `generate_template_with_ai` (source lines 343-577): builds the messages,
runs the 5-attempt retry loop, and on success assembles the result with the
description/tags fallbacks of lines 567-573.  Returns the outcome and the
number of provider calls made. -/
def generate_template_with_ai (generation_mode prompt template_name description : String)
    (tags : List String) (reference_image : Option RefImage)
    (resp : Nat → Except String String) : Except String GenResult × Nat :=
  let _messages := build_generation_messages generation_mode prompt reference_image
  match genLoop resp 0 5 with
  | (Except.error m, n) => (Except.error m, n)
  | (Except.ok (html_template, full_response), n) =>
    (Except.ok
      { html_template := html_template,
        template_name := template_name,
        description := if description = "" then "AI生成的模板：" ++ takeStr 100 prompt
                       else description,
        tags := if tags = [] then ["AI生成"] else tags,
        llm_response := full_response }, n)

/-! ### Helper lemmas -/

theorem mem_of_isPrefixOf_mem {needle l : List Char} {x : Char}
    (h : needle.isPrefixOf l = true) (hx : x ∈ needle) : x ∈ l := by
  rcases List.isPrefixOf_iff_prefix.mp h with ⟨t, rfl⟩
  exact List.mem_append_left t hx

theorem mem_of_mem_pyStrip {x : Char} {s : List Char} (h : x ∈ pyStrip s) : x ∈ s := by
  unfold pyStrip at h
  rw [List.mem_reverse] at h
  have h1 := (List.dropWhile_sublist (l := (s.dropWhile isPySpace).reverse)
    (p := isPySpace)).subset h
  rw [List.mem_reverse] at h1
  exact (List.dropWhile_sublist (l := s) (p := isPySpace)).subset h1

theorem fenceHtmlSpan_eq_none {s : List Char} (h : '\x60' ∉ s) :
    fenceHtmlSpan s = none := by
  unfold fenceHtmlSpan
  rw [(findSub_none_iff _ _).mpr (containsSub_false_of_not_mem _ _ '\x60' (by decide) h)]

theorem fencedDoctypeSpan_eq_none {s : List Char} (h : '\x60' ∉ s) :
    fencedDoctypeSpan s = none := by
  induction s with
  | nil => rfl
  | cons c t ih =>
    have hAt : fencedDoctypeAt (c :: t) = none := by
      unfold fencedDoctypeAt
      have : fenceTok.isPrefixOf (c :: t) = false := by
        by_contra hp
        exact h (mem_of_isPrefixOf_mem (Bool.of_not_eq_false hp) (by decide))
      simp [this]
    have ht : '\x60' ∉ t := fun hm => h (List.mem_cons_of_mem c hm)
    simp [fencedDoctypeSpan, hAt, ih ht]

theorem doctypeSpan_eq_none {s : List Char} (h : '<' ∉ lowerL s) :
    doctypeSpan s = none := by
  unfold doctypeSpan findSubCI
  rw [(findSub_none_iff _ _).mpr (containsSub_false_of_not_mem _ _ '<' (by decide) h)]

/-- When none of the three search patterns matches, both the whole-document
branch and the last-resort branch of extraction return the stripped input. -/
theorem extractHtmlL_eq_strip_of_patterns_none {s : List Char}
    (h1 : fenceHtmlSpan s = none) (h2 : fencedDoctypeSpan s = none)
    (h3 : doctypeSpan s = none) : extractHtmlL s = pyStrip s := by
  unfold extractHtmlL
  rw [h1, h2, h3]
  by_cases hw : wholeIsHtml (pyStrip s) <;> simp [hw]

/-! ### Claims C3 and C4 -/

/-- C3: for every input text, `_extract_html_from_response` never raises (the
embedding is total) and tries its patterns in this fixed order, first match
wins, returning the matched span trimmed of surrounding whitespace: (1) a
fenced block tagged `html`; (2) a fenced block (with an optional alphabetic
language tag) whose content spans a case-insensitive `<!DOCTYPE html` …
`</html>`; (3) a bare case-insensitive `<!DOCTYPE html` … `</html>` span
anywhere; (4)/(5) otherwise the trimmed input is returned unchanged — the
source's whole-document test (4) and last resort (5) both return the stripped
input.  The final conjunct is the spec's marker-free instance: text containing
no backtick and (case-insensitively) no `<` is returned trimmed, unchanged. -/
theorem c3_extraction_order_first_match_wins :
    (∀ s : String, ∀ c, fenceHtmlSpan s.data = some c →
        extract_html_from_response s = String.mk (pyStrip c)) ∧
    (∀ s : String, ∀ c, fenceHtmlSpan s.data = none →
        fencedDoctypeSpan s.data = some c →
        extract_html_from_response s = String.mk (pyStrip c)) ∧
    (∀ s : String, ∀ c, fenceHtmlSpan s.data = none →
        fencedDoctypeSpan s.data = none → doctypeSpan s.data = some c →
        extract_html_from_response s = String.mk (pyStrip c)) ∧
    (∀ s : String, fenceHtmlSpan s.data = none → fencedDoctypeSpan s.data = none →
        doctypeSpan s.data = none → extract_html_from_response s = pyStripS s) ∧
    (∀ s : String, (∀ x ∈ s.data, Char.toLower x ≠ '\x60' ∧ Char.toLower x ≠ '<') →
        extract_html_from_response s = pyStripS s) := by
  refine ⟨?_, ?_, ?_, ?_, ?_⟩
  · intro s c h
    unfold extract_html_from_response extractHtmlL
    rw [h]
  · intro s c h1 h2
    unfold extract_html_from_response extractHtmlL
    rw [h1, h2]
  · intro s c h1 h2 h3
    unfold extract_html_from_response extractHtmlL
    rw [h1, h2, h3]
  · intro s h1 h2 h3
    unfold extract_html_from_response pyStripS
    rw [extractHtmlL_eq_strip_of_patterns_none h1 h2 h3]
  · intro s h
    have hbt : '\x60' ∉ s.data := by
      intro hm
      have := (h _ hm).1
      simp at this
    have hlt : '<' ∉ lowerL s.data := by
      intro hm
      rcases List.mem_map.mp hm with ⟨y, hy, hly⟩
      exact (h y hy).2 hly
    unfold extract_html_from_response pyStripS
    rw [extractHtmlL_eq_strip_of_patterns_none (fenceHtmlSpan_eq_none hbt)
      (fencedDoctypeSpan_eq_none hbt) (doctypeSpan_eq_none hlt)]

/-- C3 witness: the theorem applied at concrete inputs, one per layer — a
tagged fence, a generic fence containing a document, a bare document span, and
marker-free text. -/
theorem c3_extraction_order_first_match_wins_witness :
    extract_html_from_response "a ```html\n<b>x</b>\n``` z" = "<b>x</b>" ∧
    extract_html_from_response "```css\n<!DOCTYPE html>a</html>\n```" = "<!DOCTYPE html>a</html>" ∧
    extract_html_from_response "t <!doctype HTML>b</HTML> u" = "<!doctype HTML>b</HTML>" ∧
    extract_html_from_response "  plain answer  " = "plain answer" := by
  refine ⟨?_, ?_, ?_, ?_⟩
  · rw [c3_extraction_order_first_match_wins.1 "a ```html\n<b>x</b>\n``` z"
      "\n<b>x</b>\n".data (by decide)]
    decide
  · rw [c3_extraction_order_first_match_wins.2.1 "```css\n<!DOCTYPE html>a</html>\n```"
      "<!DOCTYPE html>a</html>".data (by decide) (by decide)]
    decide
  · rw [c3_extraction_order_first_match_wins.2.2.1 "t <!doctype HTML>b</HTML> u"
      "<!doctype HTML>b</HTML>".data (by decide) (by decide) (by decide)]
    decide
  · rw [c3_extraction_order_first_match_wins.2.2.2.2 "  plain answer  " (by decide)]
    decide

/-- C4: `_validate_html_template` returns `true` iff the candidate is
non-empty and not all whitespace, its lower-cased trimmed text starts with
`<!doctype html`, contains `</html>`, and contains each of `<head`, `<body`
and `<title`; in particular it returns `false` for the empty string and for a
full document missing `<title>`, and `true` for a full well-formed document.
The source's `try/except → False` is vacuously satisfied: the embedding is a
total boolean function. -/
theorem c4_validation_characterization :
    (∀ s : String,
      validate_html_template s = true ↔
        (pyStrip s.data ≠ [] ∧
         "<!doctype html".data <+: pyStrip (lowerL s.data) ∧
         (∃ a b, pyStrip (lowerL s.data) = a ++ "</html>".data ++ b) ∧
         (∃ a b, pyStrip (lowerL s.data) = a ++ "<head".data ++ b) ∧
         (∃ a b, pyStrip (lowerL s.data) = a ++ "<body".data ++ b) ∧
         (∃ a b, pyStrip (lowerL s.data) = a ++ "<title".data ++ b))) ∧
    validate_html_template "" = false ∧
    validate_html_template
      "<!DOCTYPE html><html><head></head><body>x</body></html>" = false ∧
    validate_html_template
      "<!DOCTYPE html><html><head><title>t</title></head><body>x</body></html>" = true := by
  refine ⟨?_, by decide, by decide, by decide⟩
  intro s
  unfold validate_html_template
  by_cases he : (pyStrip s.data).isEmpty
  · rw [if_pos he]
    refine iff_of_false (by simp) ?_
    rintro ⟨hne, _⟩
    exact hne (List.isEmpty_iff.mp he)
  · rw [if_neg he]
    simp only [Bool.and_eq_true, List.isPrefixOf_iff_prefix, containsSub_iff]
    constructor
    · rintro ⟨⟨⟨⟨hp, h1⟩, h2⟩, h3⟩, h4⟩
      refine ⟨fun hcon => he ?_, hp, h1, h2, h3, h4⟩
      rw [hcon]
      rfl
    · rintro ⟨_, hp, h1, h2, h3, h4⟩
      exact ⟨⟨⟨⟨hp, h1⟩, h2⟩, h3⟩, h4⟩

/-! ### Claim C5 (corrected) -/

/-- C5 counterexample: the claim says a malformed/unknown mode string falls
back to the text-only message "regardless of whether a reference image is
supplied"; but with a reference image present the source's branch condition
(`generation_mode != "text_only" and reference_image`) sends any unknown mode
down the multimodal branch (with the `one_to_one` instruction), which is not
the text-only message. -/
theorem c5_unknown_mode_with_image_not_text_only :
    build_generation_messages "bogus_mode" "p" (some ⟨"img", "image/png"⟩) ≠
      build_generation_messages "text_only" "p" (some ⟨"img", "image/png"⟩) := by
  intro h
  have := congrArg (fun l => (l.headD ⟨"user", []⟩).content.length) h
  simp [build_generation_messages] at this

/-- C5 (amended): for every request whose mode requires a reference image
(`reference_style` or `exact_replica`/`one_to_one`) but where none is
supplied, the produced message is the same text-only message as for mode
`text_only`, with no error raised — and likewise for malformed or unknown
mode strings *without* a reference image; when a reference image is supplied,
any mode other than `text_only` (including malformed ones) produces the
multimodal message, malformed modes being treated as `one_to_one`. -/
theorem c5_prompt_fallback :
    (∀ mode prompt : String,
      build_generation_messages mode prompt none =
        build_generation_messages "text_only" prompt none) ∧
    (∀ (mode prompt : String) (img : RefImage), mode ≠ "text_only" →
      build_generation_messages mode prompt (some img) =
        [⟨"user", [MessagePart.text (multimodalPromptGen
            (if mode = "reference_style" then refStyleInstruction
             else oneToOneInstruction) prompt),
          MessagePart.image (normalizeImageUrl img)]⟩]) := by
  constructor
  · intro mode prompt
    rfl
  · intro mode prompt img hmode
    simp [build_generation_messages, hmode]

/-- C5 witness: the amended theorem at mode `reference_style` with no image,
and at an unknown mode with an image. -/
theorem c5_prompt_fallback_witness :
    build_generation_messages "reference_style" "p" none =
      build_generation_messages "text_only" "p" none ∧
    build_generation_messages "bogus_mode" "p" (some ⟨"img", "image/png"⟩) =
      [⟨"user", [MessagePart.text (multimodalPromptGen oneToOneInstruction "p"),
        MessagePart.image (normalizeImageUrl ⟨"img", "image/png"⟩)]⟩] := by
  constructor
  · exact c5_prompt_fallback.1 "reference_style" "p"
  · have h := c5_prompt_fallback.2 "bogus_mode" "p" ⟨"img", "image/png"⟩ (by decide)
    simpa using h

/-! ### Claims C7, C8, C10 (CRUD guard behavior) -/

/-- C7: `delete_template` on an id whose record has the default flag set
raises (a `ValueError`, the service's validation-error class) and issues no
delete call to the collaborator; delete of a non-existent id returns `false`
without raising; and delete of an existing non-default record delegates to
the collaborator and returns its boolean result. -/
theorem c7_delete_template_guards :
    ∀ (template_id : Nat) (get_by_id : Nat → Option TemplateRecord)
      (db_delete : Nat → Bool),
      (∀ t, get_by_id template_id = some t → t.is_default = true →
        delete_template template_id get_by_id db_delete =
          (Except.error "Cannot delete the default template", [])) ∧
      (get_by_id template_id = none →
        delete_template template_id get_by_id db_delete = (Except.ok false, [])) ∧
      (∀ t, get_by_id template_id = some t → t.is_default = false →
        delete_template template_id get_by_id db_delete =
          (Except.ok (db_delete template_id), [template_id])) := by
  intro template_id get_by_id db_delete
  refine ⟨?_, ?_, ?_⟩
  · intro t ht hd
    unfold delete_template
    rw [ht]
    simp [hd]
  · intro h
    unfold delete_template
    rw [h]
  · intro t ht hd
    unfold delete_template
    rw [ht]
    simp [hd]

/-- C7 witness: the theorem applied at a default record, a missing id, and a
non-default record. -/
theorem c7_delete_template_guards_witness :
    delete_template 1 (fun _ => some ⟨1, "n", "h", "p", [], true, true, 0⟩) (fun _ => true) =
      (Except.error "Cannot delete the default template", []) ∧
    delete_template 2 (fun _ => none) (fun _ => true) = (Except.ok false, []) ∧
    delete_template 3 (fun _ => some ⟨3, "n", "h", "p", [], false, true, 0⟩) (fun _ => true) =
      (Except.ok true, [3]) := by
  refine ⟨?_, ?_, ?_⟩
  · exact (c7_delete_template_guards 1 _ _).1 _ rfl rfl
  · exact (c7_delete_template_guards 2 _ _).2.1 rfl
  · exact (c7_delete_template_guards 3 _ _).2.2 _ rfl rfl

/-- C8: `create_template` raises without issuing any collaborator create call
when a required field (`template_name` or `html_template`) is missing/empty,
or when the by-name lookup returns an existing record with the requested
name; only when both checks pass is the collaborator's create invoked.  (The
lookup itself is the external collaborator's
`get_global_master_template_by_name`, modelled as an oracle; per the spec it
consults active and inactive records alike.) -/
theorem c8_create_template_guards :
    ∀ (template_name html_template : String)
      (get_by_name : String → Option TemplateRecord) (db_create : TemplateRecord),
      (template_name = "" ∨ html_template = "" →
        ∃ m, create_template template_name html_template get_by_name db_create =
          (Except.error m, false)) ∧
      (∀ r, template_name ≠ "" → html_template ≠ "" →
        get_by_name template_name = some r →
        create_template template_name html_template get_by_name db_create =
          (Except.error ("Template name '" ++ template_name ++ "' already exists"),
           false)) ∧
      (template_name ≠ "" → html_template ≠ "" → get_by_name template_name = none →
        create_template template_name html_template get_by_name db_create =
          (Except.ok db_create, true)) := by
  intro template_name html_template get_by_name db_create
  refine ⟨?_, ?_, ?_⟩
  · rintro (h | h)
    · exact ⟨"Missing required field: template_name", by simp [create_template, h]⟩
    · by_cases hn : template_name = ""
      · exact ⟨"Missing required field: template_name", by simp [create_template, hn]⟩
      · exact ⟨"Missing required field: html_template", by simp [create_template, hn, h]⟩
  · intro r hn hh hr
    unfold create_template
    rw [if_neg hn, if_neg hh, hr]
  · intro hn hh hnone
    unfold create_template
    rw [if_neg hn, if_neg hh, hnone]

/-- C8 witness: the theorem applied at an empty required field, a duplicate
name, and a fresh name. -/
theorem c8_create_template_guards_witness :
    (∃ m, create_template "" "<b>x</b>" (fun _ => none)
        ⟨1, "n", "<b>x</b>", "p", [], false, true, 0⟩ = (Except.error m, false)) ∧
    create_template "n" "<b>x</b>" (fun _ => some ⟨7, "n", "h", "p", [], false, false, 0⟩)
        ⟨1, "n", "<b>x</b>", "p", [], false, true, 0⟩ =
      (Except.error "Template name 'n' already exists", false) ∧
    create_template "n" "<b>x</b>" (fun _ => none)
        ⟨1, "n", "<b>x</b>", "p", [], false, true, 0⟩ =
      (Except.ok ⟨1, "n", "<b>x</b>", "p", [], false, true, 0⟩, true) := by
  refine ⟨?_, ?_, ?_⟩
  · exact (c8_create_template_guards "" "<b>x</b>" _ _).1 (Or.inl rfl)
  · exact (c8_create_template_guards "n" "<b>x</b>" _ _).2.1 _ (by decide) (by decide) rfl
  · exact (c8_create_template_guards "n" "<b>x</b>" _ _).2.2 (by decide) (by decide) rfl

/-- C10: `update_template` with update data containing `template_name` raises
a duplicate-name error if and only if the by-name lookup returns a record
whose id differs from the id being updated; renaming a template to its own
current name does not raise and proceeds to the collaborator's update call. -/
theorem c10_update_template_duplicate_name :
    ∀ (template_id : Nat) (n : String)
      (get_by_name : String → Option TemplateRecord) (db_update : Bool),
      ((∃ m, (update_template template_id (some n) get_by_name db_update).1 =
          Except.error m) ↔
        (∃ r, get_by_name n = some r ∧ r.id ≠ template_id)) ∧
      (∀ r, get_by_name n = some r → r.id = template_id →
        update_template template_id (some n) get_by_name db_update =
          (Except.ok db_update, true)) := by
  intro template_id n get_by_name db_update
  constructor
  · cases hr : get_by_name n with
    | none => simp [update_template, hr]
    | some existing =>
      by_cases hid : existing.id = template_id
      · simp [update_template, hr, hid]
      · simp [update_template, hr, hid]
  · intro r hr hid
    simp [update_template, hr, hid]

/-- C10 witness: a conflicting rename (different id) errors; renaming to the
record's own name proceeds to the collaborator update. -/
theorem c10_update_template_duplicate_name_witness :
    (∃ m, (update_template 1 (some "n")
        (fun _ => some ⟨2, "n", "h", "p", [], false, true, 0⟩) true).1 =
      Except.error m) ∧
    update_template 1 (some "n")
        (fun _ => some ⟨1, "n", "h", "p", [], false, true, 0⟩) true =
      (Except.ok true, true) := by
  constructor
  · exact (c10_update_template_duplicate_name 1 "n" _ true).1.mpr
      ⟨⟨2, "n", "h", "p", [], false, true, 0⟩, rfl, by decide⟩
  · exact (c10_update_template_duplicate_name 1 "n" _ true).2 _ rfl rfl

/-! ### Claim C9 (pagination arithmetic) -/

/-- C9: for every `page ≥ 1`, `page_size ≥ 1` and collaborator-reported
`total_count`, both paginated listings compute
`total_pages = (total_count + page_size - 1) // page_size`, which is the
ceiling of `total_count / page_size` (characterized by
`total_count ≤ total_pages * page_size < total_count + page_size`), with
`has_next = (page < total_pages)` and `has_prev = (page > 1)`; and at the
claim's concrete instances `page_size = 6, total_count = 13` gives
`total_pages = 3`, page 3 has `has_next = false`, `has_prev = true`, and page
1 has `has_prev = false`. -/
theorem c9_pagination_arithmetic :
    (∀ (page page_size : Nat) (db : Nat → Nat → List TemplateRecord × Nat),
      1 ≤ page → 1 ≤ page_size →
      ((get_all_templates_paginated page page_size db).pagination.total_pages =
        ((db ((page - 1) * page_size) page_size).2 + page_size - 1) / page_size ∧
       (db ((page - 1) * page_size) page_size).2 ≤
        (get_all_templates_paginated page page_size db).pagination.total_pages * page_size ∧
       (get_all_templates_paginated page page_size db).pagination.total_pages * page_size <
        (db ((page - 1) * page_size) page_size).2 + page_size ∧
       ((get_all_templates_paginated page page_size db).pagination.has_next = true ↔
        page < (get_all_templates_paginated page page_size db).pagination.total_pages) ∧
       ((get_all_templates_paginated page page_size db).pagination.has_prev = true ↔
        1 < page))) ∧
    (∀ (tags : List String) (page page_size : Nat)
      (db : List String → Nat → Nat → List TemplateRecord × Nat),
      1 ≤ page → 1 ≤ page_size →
      ((get_templates_by_tags_paginated tags page page_size db).pagination.total_pages =
        ((db tags ((page - 1) * page_size) page_size).2 + page_size - 1) / page_size ∧
       (db tags ((page - 1) * page_size) page_size).2 ≤
        (get_templates_by_tags_paginated tags page page_size db).pagination.total_pages * page_size ∧
       (get_templates_by_tags_paginated tags page page_size db).pagination.total_pages * page_size <
        (db tags ((page - 1) * page_size) page_size).2 + page_size ∧
       ((get_templates_by_tags_paginated tags page page_size db).pagination.has_next = true ↔
        page < (get_templates_by_tags_paginated tags page page_size db).pagination.total_pages) ∧
       ((get_templates_by_tags_paginated tags page page_size db).pagination.has_prev = true ↔
        1 < page))) ∧
    ((get_all_templates_paginated 3 6 (fun _ _ => ([], 13))).pagination.total_pages = 3 ∧
     (get_all_templates_paginated 3 6 (fun _ _ => ([], 13))).pagination.has_next = false ∧
     (get_all_templates_paginated 3 6 (fun _ _ => ([], 13))).pagination.has_prev = true ∧
     (get_all_templates_paginated 1 6 (fun _ _ => ([], 13))).pagination.has_prev = false) := by
  have ceil : ∀ t p : Nat, 1 ≤ p →
      t ≤ ((t + p - 1) / p) * p ∧ ((t + p - 1) / p) * p < t + p := by
    intro t p hp
    have hmod := Nat.div_add_mod (t + p - 1) p
    have hlt : (t + p - 1) % p < p := Nat.mod_lt _ hp
    rw [Nat.mul_comm ((t + p - 1) / p) p]
    omega
  refine ⟨?_, ?_, by decide, by decide, by decide, by decide⟩
  · intro page page_size db hpage hps
    refine ⟨rfl, (ceil _ _ hps).1, (ceil _ _ hps).2, ?_, ?_⟩
    · simp [get_all_templates_paginated]
    · simp [get_all_templates_paginated]
  · intro tags page page_size db hpage hps
    refine ⟨rfl, (ceil _ _ hps).1, (ceil _ _ hps).2, ?_, ?_⟩
    · simp [get_templates_by_tags_paginated]
    · simp [get_templates_by_tags_paginated]

/-- C9 witness: the universal component applied at page 3, page size 6, total
count 13. -/
theorem c9_pagination_arithmetic_witness :
    13 ≤ (get_all_templates_paginated 3 6 (fun _ _ => ([], 13))).pagination.total_pages * 6 ∧
    (get_all_templates_paginated 3 6 (fun _ _ => ([], 13))).pagination.total_pages * 6 < 13 + 6 := by
  have h := c9_pagination_arithmetic.1 3 6 (fun _ _ => ([], 13)) (by decide) (by decide)
  exact ⟨h.2.1, h.2.2.1⟩

/-! ### Claims C1 and C6 (streaming event discipline) -/

@[simp] theorem isError_thinking (s : String) :
    (StreamEvent.thinking s).isError = false := rfl

@[simp] theorem isError_complete (p : CompletePayload) :
    (StreamEvent.complete p).isError = false := rfl

@[simp] theorem isError_error (m : String) :
    (StreamEvent.error m).isError = true := rfl

theorem textStreamPhase_no_error (p : ProviderStub) :
    ∀ e ∈ (textStreamPhase p).1, e.isError = false := by
  intro e he
  unfold textStreamPhase at he
  by_cases hs : p.supportsStreamText
  · rw [if_pos hs] at he
    rcases List.mem_map.mp he with ⟨c, _, rfl⟩
    rfl
  · rw [if_neg hs] at he
    rcases hr : p.textResult with e0 | content <;> rw [hr] at he <;> dsimp only at he
    · simp at he
    · simp only [List.mem_cons, List.not_mem_nil, or_false] at he
      rcases he with rfl | rfl <;> rfl

theorem generate_stream_body_no_error (gm prompt tname desc : String)
    (tags : List String) (ri : Option RefImage) (p : ProviderStub) :
    ∀ e ∈ (generate_stream_body gm prompt tname desc tags ri p).1,
      e.isError = false := by
  intro e he
  unfold generate_stream_body at he
  by_cases hm : (gm ≠ "text_only" ∧ ri.isSome)
  · rw [if_pos hm] at he
    by_cases hsc : p.supportsStreamChat
    · rw [if_pos hsc] at he
      rcases List.mem_map.mp he with ⟨c, _, rfl⟩
      rfl
    · rw [if_neg hsc] at he
      rcases hr : p.chatResult with e0 | content <;> rw [hr] at he <;> dsimp only at he
      · simp at he
      · simp only [List.mem_cons, List.not_mem_nil, or_false] at he
        rcases he with rfl | rfl <;> rfl
  · rw [if_neg hm] at he
    rcases hph : textStreamPhase p with ⟨evs, exc⟩
    have hevs := textStreamPhase_no_error p
    rw [hph] at he hevs
    rcases exc with e0 | full <;> dsimp only at he
    · exact hevs e he
    · by_cases hv : validate_html_template (extract_html_from_response full) = true
      · rw [if_pos hv] at he
        rcases List.mem_append.mp he with h | h
        · exact hevs e h
        · simp only [List.mem_cons, List.not_mem_nil, or_false] at h
          rcases h with rfl | rfl | rfl <;> rfl
      · rw [if_neg hv] at he
        rcases List.mem_append.mp he with h | h
        · exact hevs e h
        · simp only [List.mem_cons, List.not_mem_nil, or_false] at h
          rcases h with rfl
          rfl

theorem adjust_stream_body_no_error (areq aname : String) (p : ProviderStub) :
    ∀ e ∈ (adjust_stream_body areq aname p).1, e.isError = false := by
  intro e he
  unfold adjust_stream_body at he
  by_cases hs : p.supportsStreamText
  · rw [if_pos hs] at he
    rcases herr : p.streamTextErr with _ | e0 <;> rw [herr] at he <;> dsimp only at he
    · by_cases hv : validate_html_template
          (extract_html_from_response (String.join p.streamTextChunks)) = true
      · rw [if_pos hv] at he
        rcases List.mem_append.mp he with h | h
        · rcases List.mem_map.mp h with ⟨c, _, rfl⟩
          rfl
        · simp only [List.mem_cons, List.not_mem_nil, or_false] at h
          rcases h with rfl | rfl <;> rfl
      · rw [if_neg hv] at he
        rcases List.mem_append.mp he with h | h
        · rcases List.mem_map.mp h with ⟨c, _, rfl⟩
          rfl
        · simp only [List.mem_cons, List.not_mem_nil, or_false] at h
          rcases h with rfl
          rfl
    · rcases List.mem_map.mp he with ⟨c, _, rfl⟩
      rfl
  · rw [if_neg hs] at he
    rcases hr : p.textResult with e0 | content <;> rw [hr] at he <;> dsimp only at he
    · simp only [List.mem_cons, List.not_mem_nil, or_false] at he
      rcases he with rfl | rfl | rfl <;> rfl
    · by_cases hv : validate_html_template (extract_html_from_response content) = true
      · rw [if_pos hv] at he
        simp only [List.mem_cons, List.not_mem_nil, or_false] at he
        rcases he with rfl | rfl | rfl | rfl | rfl <;> rfl
      · rw [if_neg hv] at he
        simp only [List.mem_cons, List.not_mem_nil, or_false] at he
        rcases he with rfl | rfl | rfl | rfl <;> rfl

/-- C6: the streaming operations never let an exception escape: whatever the
provider stub does, no `error` event occurs before the last position of the
yielded sequence, and whenever the `try`-body raises (any provider failure,
extraction issue or validation failure), the operation yields exactly the
body's `thinking`-only events followed by one terminal `error` event carrying
the failure message, after which the sequence ends.  (Totality of the
embedding is the "never raises" part: every run produces a finite event
list.) -/
theorem c6_streams_convert_exceptions_to_single_error :
    (∀ (gm prompt tname desc : String) (tags : List String) (ri : Option RefImage)
      (p : ProviderStub),
      (∀ e ∈ (generate_template_with_ai_stream gm prompt tname desc tags ri p).dropLast,
        e.isError = false) ∧
      (∀ m, (generate_stream_body gm prompt tname desc tags ri p).2 = some m →
        generate_template_with_ai_stream gm prompt tname desc tags ri p =
          (generate_stream_body gm prompt tname desc tags ri p).1 ++
            [StreamEvent.error m])) ∧
    (∀ (areq aname : String) (p : ProviderStub),
      (∀ e ∈ (adjust_template_with_ai_stream areq aname p).dropLast,
        e.isError = false) ∧
      (∀ m, (adjust_stream_body areq aname p).2 = some m →
        adjust_template_with_ai_stream areq aname p =
          (adjust_stream_body areq aname p).1 ++ [StreamEvent.error m])) := by
  constructor
  · intro gm prompt tname desc tags ri p
    rcases hb : generate_stream_body gm prompt tname desc tags ri p with ⟨evs, exc⟩
    have hne := generate_stream_body_no_error gm prompt tname desc tags ri p
    rw [hb] at hne
    constructor
    · intro e he
      unfold generate_template_with_ai_stream at he
      rw [hb] at he
      rcases exc with _ | m <;> simp only at he
      · exact hne e ((List.dropLast_sublist _).subset he)
      · rw [List.dropLast_concat] at he
        exact hne e he
    · intro m hm
      simp only at hm
      subst hm
      unfold generate_template_with_ai_stream
      rw [hb]
  · intro areq aname p
    rcases hb : adjust_stream_body areq aname p with ⟨evs, exc⟩
    have hne := adjust_stream_body_no_error areq aname p
    rw [hb] at hne
    constructor
    · intro e he
      unfold adjust_template_with_ai_stream at he
      rw [hb] at he
      rcases exc with _ | m <;> simp only at he
      · exact hne e ((List.dropLast_sublist _).subset he)
      · rw [List.dropLast_concat] at he
        exact hne e he
    · intro m hm
      simp only at hm
      subst hm
      unfold adjust_template_with_ai_stream
      rw [hb]

/-- C6 witness: with a provider stub whose blocking calls raise, both streams
yield their pre-call events followed by exactly one terminal `error` event. -/
theorem c6_streams_convert_exceptions_to_single_error_witness :
    generate_template_with_ai_stream "text_only" "p" "n" "" [] none
        ⟨false, false, [], none, Except.ok "x", [], none, Except.error "boom"⟩ =
      (generate_stream_body "text_only" "p" "n" "" [] none
        ⟨false, false, [], none, Except.ok "x", [], none, Except.error "boom"⟩).1 ++
        [StreamEvent.error "boom"] ∧
    adjust_template_with_ai_stream "r" "t"
        ⟨false, false, [], none, Except.ok "x", [], none, Except.error "bang"⟩ =
      (adjust_stream_body "r" "t"
        ⟨false, false, [], none, Except.ok "x", [], none, Except.error "bang"⟩).1 ++
        [StreamEvent.error "bang"] := by
  constructor
  · exact (c6_streams_convert_exceptions_to_single_error.1 "text_only" "p" "n" "" [] none
      ⟨false, false, [], none, Except.ok "x", [], none, Except.error "boom"⟩).2 "boom" rfl
  · exact (c6_streams_convert_exceptions_to_single_error.2 "r" "t"
      ⟨false, false, [], none, Except.ok "x", [], none, Except.error "bang"⟩).2 "bang" rfl

/-- C1 (demonstrating the code bug): in the multimodal path (a reference
image attached with mode `reference_style` or `one_to_one`), a successful run
yields only `thinking` events and the stream ends with no terminal `complete`
or `error` event — the extract/validate/`complete` block of the source (lines
765-787) is nested under the text-only branch, so the claimed "exactly one
terminal event in every generation mode" fails on the multimodal path. -/
theorem c1_multimodal_stream_lacks_terminal_event :
    generate_template_with_ai_stream "reference_style" "p" "tpl" "" []
        (some ⟨"data:image/png;base64,AAA", "image/png"⟩)
        ⟨true, true, ["chunk"], none, Except.ok "x", [], none, Except.ok "y"⟩ =
      [StreamEvent.thinking "chunk"] ∧
    generate_template_with_ai_stream "one_to_one" "p" "tpl" "" []
        (some ⟨"AAA", "image/png"⟩)
        ⟨false, false, [], none, Except.ok "resp", [], none, Except.ok "y"⟩ =
      [StreamEvent.thinking "🖼️ 正在分析参考图片...\n\n",
       StreamEvent.thinking "resp"] ∧
    ((generate_template_with_ai_stream "reference_style" "p" "tpl" "" []
        (some ⟨"data:image/png;base64,AAA", "image/png"⟩)
        ⟨true, true, ["chunk"], none, Except.ok "x", [], none, Except.ok "y"⟩).countP
      StreamEvent.isTerminal = 0) := by
  refine ⟨rfl, rfl, rfl⟩

/-! ### Claim C2 (retry bound and recovery, corrected) -/

/-- A provider-attempt outcome on which the non-final per-attempt policy of
the blocking retry loop moves on to the next attempt: a raised provider
exception, an empty/blank response, a response shorter than 2000 characters,
a blank extraction, or a failed validation. -/
def attemptRetryable (r : Except String String) : Prop :=
  (∃ e, r = Except.error e) ∨
  ∃ s, r = Except.ok s ∧
    (pyStripS s = "" ∨ s.length < 2000 ∨
     pyStripS (extract_html_from_response s) = "" ∨
     validate_html_template (extract_html_from_response s) = false)

theorem attemptStep_retry_of_retryable {r : Except String String}
    (h : attemptRetryable r) : attemptStep r false = AttemptOut.retry := by
  rcases h with ⟨e, rfl⟩ | ⟨s, rfl, hs⟩
  · rfl
  · unfold attemptStep
    by_cases h1 : pyStripS s = ""
    · simp [h1]
    · have hs1 := hs.resolve_left h1
      by_cases h2 : s.length < 2000
      · simp [h1, h2]
      · have hs2 := hs1.resolve_left h2
        by_cases h3 : pyStripS (extract_html_from_response s) = ""
        · simp [h1, h2, h3]
        · have h4 := hs2.resolve_left h3
          simp [h1, h2, h3, h4]

theorem attemptStep_success {s : String} (final : Bool)
    (h1 : pyStripS s ≠ "") (h2 : 2000 ≤ s.length ∨ final = true)
    (h3 : pyStripS (extract_html_from_response s) ≠ "")
    (h4 : validate_html_template (extract_html_from_response s) = true) :
    attemptStep (Except.ok s) final =
      AttemptOut.success (extract_html_from_response s) s := by
  unfold attemptStep
  have hshort : ¬(s.length < 2000 ∧ final = false) := by
    rcases h2 with h | h
    · rintro ⟨hl, _⟩
      omega
    · rintro ⟨_, hf⟩
      rw [h] at hf
      cases hf
  simp [h1, hshort, h3, h4]

theorem attemptStep_blank_final {s : String} (h : pyStripS s = "") :
    attemptStep (Except.ok s) true = AttemptOut.fail "AI服务返回空响应" := by
  unfold attemptStep
  simp [h]

theorem genLoop_count_le (resp : Nat → Except String String) :
    ∀ remaining attempt, (genLoop resp attempt remaining).2 ≤ remaining := by
  intro remaining
  induction remaining with
  | zero => intro a; simp [genLoop]
  | succ r ih =>
    intro a
    simp only [genLoop]
    rcases hstep : attemptStep (resp a) (decide (r = 0)) with _ | _ | _ <;> simp
    exact ih (a + 1)

theorem genLoop_retry_step (resp : Nat → Except String String) (a r : Nat)
    (hr : 1 ≤ r) (h : attemptRetryable (resp a)) :
    genLoop resp a (r + 1) =
      ((genLoop resp (a + 1) r).1, (genLoop resp (a + 1) r).2 + 1) := by
  have hfinal : decide (r = 0) = false := by
    simp
    omega
  simp only [genLoop, hfinal, attemptStep_retry_of_retryable h]

theorem genLoop_success_at (resp : Nat → Except String String) :
    ∀ (k a r : Nat), k < r → (∀ j, j < k → attemptRetryable (resp (a + j))) →
    ∀ s, resp (a + k) = Except.ok s →
    pyStripS s ≠ "" → (2000 ≤ s.length ∨ k = r - 1) →
    pyStripS (extract_html_from_response s) ≠ "" →
    validate_html_template (extract_html_from_response s) = true →
    genLoop resp a r = (Except.ok (extract_html_from_response s, s), k + 1) := by
  intro k
  induction k with
  | zero =>
    intro a r hkr _ s hs h1 h2 h3 h4
    rcases r with _ | r'
    · omega
    · have hs0 : resp a = Except.ok s := by simpa using hs
      have h2' : 2000 ≤ s.length ∨ (decide (r' = 0) : Bool) = true := by
        rcases h2 with h | h
        · exact Or.inl h
        · right
          simp
          omega
      simp only [genLoop, hs0, attemptStep_success _ h1 h2' h3 h4]
  | succ k ih =>
    intro a r hkr hprev s hs h1 h2 h3 h4
    rcases r with _ | r'
    · omega
    · have hret : attemptRetryable (resp a) := by
        simpa using hprev 0 (by omega)
      rw [genLoop_retry_step resp a r' (by omega) hret]
      have hprev' : ∀ j, j < k → attemptRetryable (resp (a + 1 + j)) := by
        intro j hj
        rw [show a + 1 + j = a + (j + 1) by omega]
        exact hprev (j + 1) (by omega)
      have hs' : resp (a + 1 + k) = Except.ok s := by
        rw [show a + 1 + k = a + (k + 1) by omega]
        exact hs
      have h2' : 2000 ≤ s.length ∨ k = r' - 1 := by
        rcases h2 with h | h
        · exact Or.inl h
        · right
          omega
      rw [ih (a + 1) r' (by omega) hprev' s hs' h1 h2' h3 h4]

/-- C2 counterexample: a provider stub that on every attempt returns a short
but fully valid document.  Attempt 1 already yields text from which a
candidate is extracted and validates successfully (first two conjuncts), so
the claim requires the attempt-1 result with no further provider calls; but
the code's short-response gate (`len < 2000`) retries anyway, and five
provider calls are made. -/
theorem c2_short_valid_response_retries :
    pyStripS (extract_html_from_response
      "<!doctype html><head><body><title></html>") ≠ "" ∧
    validate_html_template (extract_html_from_response
      "<!doctype html><head><body><title></html>") = true ∧
    (generate_template_with_ai "text_only" "p" "n" "" [] none
      (fun _ => Except.ok "<!doctype html><head><body><title></html>")).2 = 5 := by
  refine ⟨by decide, by decide, by decide⟩

/-- C2 (amended): the provider is consulted at most 5 times; if every attempt
returns an empty or blank response, the call fails after exactly 5 attempts
with the empty-response error; and if the attempts before `k` all fail the
per-attempt gates while attempt `k` (0-based, `k < 5`) returns non-blank text
*of at least 2000 characters* (shorter text is accepted only on the final
attempt, `k = 4`) from which a candidate is extracted and validates
successfully, then the attempt-`k` result is returned and no further provider
calls are made (`k + 1` calls in total). -/
theorem c2_retry_bound_and_recovery :
    ∀ (resp : Nat → Except String String) (gm prompt tname desc : String)
      (tags : List String) (ri : Option RefImage),
      ((generate_template_with_ai gm prompt tname desc tags ri resp).2 ≤ 5) ∧
      ((∀ j, j < 5 → ∃ s, resp j = Except.ok s ∧ pyStripS s = "") →
        generate_template_with_ai gm prompt tname desc tags ri resp =
          (Except.error "AI服务返回空响应", 5)) ∧
      (∀ k, k < 5 → (∀ j, j < k → attemptRetryable (resp j)) →
        ∀ s, resp k = Except.ok s → pyStripS s ≠ "" →
        (2000 ≤ s.length ∨ k = 4) →
        pyStripS (extract_html_from_response s) ≠ "" →
        validate_html_template (extract_html_from_response s) = true →
        generate_template_with_ai gm prompt tname desc tags ri resp =
          (Except.ok
            { html_template := extract_html_from_response s,
              template_name := tname,
              description := if desc = "" then "AI生成的模板：" ++ takeStr 100 prompt
                             else desc,
              tags := if tags = [] then ["AI生成"] else tags,
              llm_response := s }, k + 1)) := by
  intro resp gm prompt tname desc tags ri
  refine ⟨?_, ?_, ?_⟩
  · unfold generate_template_with_ai
    have h := genLoop_count_le resp 5 0
    rcases hg : genLoop resp 0 5 with ⟨out, n⟩
    rw [hg] at h
    rcases out with m | ⟨h0, f0⟩ <;> simpa using h
  · intro hblank
    have step : ∀ j, j < 4 → attemptRetryable (resp j) := by
      intro j hj
      obtain ⟨s, hs, hb⟩ := hblank j (by omega)
      exact Or.inr ⟨s, hs, Or.inl hb⟩
    obtain ⟨s4, hs4, hb4⟩ := hblank 4 (by omega)
    have hfinal : genLoop resp 4 1 = (Except.error "AI服务返回空响应", 1) := by
      simp only [genLoop, hs4]
      rw [show (decide True : Bool) = true from rfl, attemptStep_blank_final hb4]
    have hloop : genLoop resp 0 5 = (Except.error "AI服务返回空响应", 5) := by
      rw [genLoop_retry_step resp 0 4 (by omega) (step 0 (by omega)),
          genLoop_retry_step resp 1 3 (by omega) (step 1 (by omega)),
          genLoop_retry_step resp 2 2 (by omega) (step 2 (by omega)),
          genLoop_retry_step resp 3 1 (by omega) (step 3 (by omega)), hfinal]
    unfold generate_template_with_ai
    rw [hloop]
  · intro k hk hprev s hs h1 h2 h3 h4
    have hs' : resp (0 + k) = Except.ok s := by
      rw [Nat.zero_add]
      exact hs
    have hprev' : ∀ j, j < k → attemptRetryable (resp (0 + j)) := by
      intro j hj
      rw [Nat.zero_add]
      exact hprev j hj
    have h2' : 2000 ≤ s.length ∨ k = 5 - 1 := h2
    have hloop := genLoop_success_at resp k 0 5 hk hprev' s hs' h1 h2' h3 h4
    unfold generate_template_with_ai
    rw [hloop]

/-- C2 witness: the amended theorem's empty-response component at a stub that
always returns the empty string, and its recovery component at `k = 4` with a
short valid document accepted on the final attempt. -/
theorem c2_retry_bound_and_recovery_witness :
    generate_template_with_ai "text_only" "p" "n" "" [] none
      (fun _ => Except.ok "") = (Except.error "AI服务返回空响应", 5) ∧
    generate_template_with_ai "text_only" "p" "n" "" [] none
      (fun j => if j = 4 then Except.ok "<!doctype html><head><body><title></html>"
                else Except.ok "") =
      (Except.ok
        { html_template := "<!doctype html><head><body><title></html>",
          template_name := "n",
          description := "AI生成的模板：p",
          tags := ["AI生成"],
          llm_response := "<!doctype html><head><body><title></html>" }, 5) := by
  constructor
  · exact (c2_retry_bound_and_recovery (fun _ => Except.ok "") "text_only" "p" "n" ""
      [] none).2.1 (fun j _ => ⟨"", rfl, rfl⟩)
  · have h := (c2_retry_bound_and_recovery
        (fun j => if j = 4 then Except.ok "<!doctype html><head><body><title></html>"
                  else Except.ok "")
        "text_only" "p" "n" "" [] none).2.2 4 (by omega)
      (fun j hj => by
        have hj4 : j ≠ 4 := by omega
        exact Or.inr ⟨"", by simp [hj4], Or.inl rfl⟩)
      "<!doctype html><head><body><title></html>" (by simp)
      (by decide) (Or.inr rfl) (by decide) (by decide)
    rw [h]
    rfl

end LandPPT
